import Mathlib

/-!
Shallow embedding of the Blender OSC camera-sync addon
(src/operators.py, src/properties.py) and proofs about it.

Numeric values (Python floats) are modelled as exact rationals; the
operations the claims are about (coordinate permutation, sign flip,
structural equality of snapshots) are exact in IEEE floats as well.
-/

namespace OscCameraSync

/-- A 3-component vector (mathutils Vector / Python 3-tuple). -/
structure Vec3 where
  x : ℚ
  y : ℚ
  z : ℚ
deriving DecidableEq, Repr

def Vec3.add (a b : Vec3) : Vec3 := ⟨a.x + b.x, a.y + b.y, a.z + b.z⟩

def Vec3.smul (v : Vec3) (c : ℚ) : Vec3 := ⟨v.x * c, v.y * c, v.z * c⟩

/-- A rotation quaternion (mathutils Quaternion, w-first). -/
structure Quat where
  w : ℚ
  x : ℚ
  y : ℚ
  z : ℚ
deriving DecidableEq, Repr

def quatMul (a b : Quat) : Quat :=
  ⟨a.w * b.w - a.x * b.x - a.y * b.y - a.z * b.z,
   a.w * b.x + a.x * b.w + a.y * b.z - a.z * b.y,
   a.w * b.y - a.x * b.z + a.y * b.w + a.z * b.x,
   a.w * b.z + a.x * b.y - a.y * b.x + a.z * b.w⟩

def quatConj (q : Quat) : Quat := ⟨q.w, -q.x, -q.y, -q.z⟩

/-- Rotation of a vector by a quaternion (mathutils `q @ v`; the world
orientation obtained from `matrix_world.to_quaternion()` is a unit
quaternion, for which this sandwich product is the rotation). -/
def quatRotate (q : Quat) (v : Vec3) : Vec3 :=
  let p : Quat := ⟨0, v.x, v.y, v.z⟩
  let r := quatMul (quatMul q p) (quatConj q)
  ⟨r.x, r.y, r.z⟩

/-- `blender_to_ossia_coords` (operators.py): transform Blender Z-up to
ossia Y-up, `(x, y, z) -> (x, z, -y)`. -/
def blender_to_ossia_coords (v : Vec3) : Vec3 := ⟨v.x, v.z, -v.y⟩

/-- The IEEE-754 double value of Python `math.pi`, as an exact rational:
884279719003555 * 2^(-48). -/
def floatPi : ℚ := 884279719003555 / 281474976710656

/-- Python `math.degrees`: multiply by 180 / pi (real-arithmetic model of
the float computation, with pi at the float value the code uses). -/
def degrees (a : ℚ) : ℚ := a * (180 / floatPi)

/-- Camera data-block fields read by the sync code (`obj.data`):
lens angle (radians, vertical FOV) and clip distances. -/
structure CameraData where
  angle : ℚ
  clip_start : ℚ
  clip_end : ℚ
deriving DecidableEq, Repr

/-- Blender object types, collapsed to what the code distinguishes. -/
inductive ObjType
  | CAMERA
  | OTHER
deriving DecidableEq, Repr

/-- A Blender object as seen by the sync code.

`location` is `obj.location`, the object's local-space location (its
translation relative to its parent, before constraints). `world_quat` is
`obj.matrix_world.to_quaternion()`, the world-space orientation.
`world_translation` is `obj.matrix_world.translation`, the world-space
position; for an object with no parent, no constraints and no delta
transform it coincides with `location`, otherwise it can differ. -/
structure BObject where
  name : String
  objType : ObjType
  location : Vec3
  world_quat : Quat
  world_translation : Vec3
  data : CameraData
deriving DecidableEq, Repr

/-- The value tuple `(ossia_pos, ossia_center, fov, near, far)` built in
`CameraOscSyncer._send_camera_data` and cached in `target.last_data`. -/
structure CameraSnapshot where
  position : Vec3
  center : Vec3
  fov : ℚ
  near : ℚ
  far : ℚ
deriving DecidableEq, Repr

/-- The extractor part of `_send_camera_data` (operators.py lines 119-138):
position from `obj.location`, look-at center from
`obj.location + (matrix_world.to_quaternion() @ (0,0,-1)) * look_distance`,
both remapped by `blender_to_ossia_coords`; FOV in degrees; clip range. -/
def computeSnapshot (obj : BObject) (look_distance : ℚ) : CameraSnapshot :=
  let blender_pos := obj.location
  let ossia_pos := blender_to_ossia_coords blender_pos
  let forward := quatRotate obj.world_quat ⟨0, 0, -1⟩
  let blender_center := Vec3.add obj.location (Vec3.smul forward look_distance)
  let ossia_center := blender_to_ossia_coords blender_center
  { position := ossia_pos
    center := ossia_center
    fov := degrees obj.data.angle
    near := obj.data.clip_start
    far := obj.data.clip_end }

/-- The snapshot as claim C3 words it: position and look-at center derived
from the object's WORLD position (the translation of the world matrix),
orientation from the world orientation quaternion. Stated for comparison
with `computeSnapshot`, which is the translation of the source. -/
def claimSnapshot (obj : BObject) (look_distance : ℚ) : CameraSnapshot :=
  let p := obj.world_translation
  let forward := quatRotate obj.world_quat ⟨0, 0, -1⟩
  { position := blender_to_ossia_coords p
    center := blender_to_ossia_coords (Vec3.add p (Vec3.smul forward look_distance))
    fov := degrees obj.data.angle
    near := obj.data.clip_start
    far := obj.data.clip_end }

/-- Python `str.rstrip` with the single character `/`: drop every trailing
slash.  Used by `CameraOscTarget.__init__` on the address prefix. -/
def rstripSlash (s : String) : String :=
  ⟨(s.data.reverse.dropWhile (fun c => c = '/')).reverse⟩

/-- `CameraOscTarget` (operators.py): one active OSC camera sync.  The
`client` is an opaque transport handle (the open UDP client); `address_pfx`
models the `address_prefix` attribute, stored with trailing slashes
removed; `last_data` is the duplicate-suppression cache, absent until the
first send. -/
structure CameraOscTarget where
  object_name : String
  client : Nat
  address_pfx : String
  look_distance : ℚ
  send_bundled : Bool
  last_data : Option CameraSnapshot
deriving DecidableEq, Repr

/-- `CameraOscTarget.__init__`: stores the arguments, strips trailing
slashes off the address prefix, and starts with an empty cache. -/
def mkTarget (object_name : String) (client : Nat) (addressArg : String)
    (look_distance : ℚ) (send_bundled : Bool) : CameraOscTarget :=
  { object_name := object_name
    client := client
    address_pfx := rstripSlash addressArg
    look_distance := look_distance
    send_bundled := send_bundled
    last_data := none }

/-- One OSC message: an address pattern and its float arguments. -/
structure OscMessage where
  address : String
  args : List ℚ
deriving DecidableEq, Repr

/-- OSC bundle time tags used by the code (`osc_bundle_builder.IMMEDIATELY`). -/
inductive OscTime
  | IMMEDIATELY
deriving DecidableEq, Repr

/-- A datagram put on the wire: either one OSC bundle (bundled mode) or one
discrete OSC message (unbundled mode). -/
inductive Packet
  | bundle (time : OscTime) (msgs : List OscMessage)
  | message (m : OscMessage)
deriving DecidableEq, Repr

/-- The five messages built by `_send_camera_data`, in source order:
position (3 floats), center (3 floats), fov, near, far (1 float each),
addressed under the stored prefix. -/
def buildMessages (pfx : String) (d : CameraSnapshot) : List OscMessage :=
  [⟨pfx ++ "/position", [d.position.x, d.position.y, d.position.z]⟩,
   ⟨pfx ++ "/center", [d.center.x, d.center.y, d.center.z]⟩,
   ⟨pfx ++ "/fov", [d.fov]⟩,
   ⟨pfx ++ "/near", [d.near]⟩,
   ⟨pfx ++ "/far", [d.far]⟩]

/-- The transport send.  `sendOk` says whether the UDP send succeeds; when
it is false the send raises, which `_send_camera_data` catches.  This is
the failure point the error-handling claims are about. -/
def transportSend (sendOk : Bool) (pkts : List Packet) : Except Unit (List Packet) :=
  if sendOk then .ok pkts else .error ()

/-- The scene object table, `bpy.data.objects`: lookup by name. -/
def Scene := List BObject

def Scene.get (s : Scene) (name : String) : Option BObject :=
  List.find? (fun o => o.name = name) s

/-- Result of one evaluate-and-maybe-send cycle on one target: the target
afterwards (its cache may have been written), the packets that went out on
the wire, and whether the except-branch logged a send error. -/
structure CycleResult where
  target : CameraOscTarget
  packets : List Packet
  errorLogged : Bool
deriving DecidableEq, Repr

/-- `CameraOscSyncer._send_camera_data` (operators.py lines 112-190), the
evaluate-and-maybe-send cycle: look up the live object by name; silently
skip if absent or not a camera; build the fresh snapshot; skip if it equals
the cache; otherwise write the cache, build the packets (one IMMEDIATELY
bundle of the five messages, or the five messages as discrete packets) and
send them, catching and logging a send failure. -/
def sendCameraData (scene : Scene) (sendOk : Bool) (t : CameraOscTarget) : CycleResult :=
  match Scene.get scene t.object_name with
  | none => ⟨t, [], false⟩
  | some obj =>
    if obj.objType ≠ ObjType.CAMERA then ⟨t, [], false⟩
    else
      let current_data := computeSnapshot obj t.look_distance
      if t.last_data = some current_data then ⟨t, [], false⟩
      else
        let t' := { t with last_data := some current_data }
        let pfx := t.address_pfx
        let pkts :=
          if t.send_bundled then
            [Packet.bundle OscTime.IMMEDIATELY (buildMessages pfx current_data)]
          else
            (buildMessages pfx current_data).map Packet.message
        match transportSend sendOk pkts with
        | .ok ps => ⟨t', ps, false⟩
        | .error _ => ⟨t', [], true⟩

/-- A cycle transmitted when at least one packet went out. -/
def transmitted (r : CycleResult) : Bool := !r.packets.isEmpty

/-- Lookup in the registry dictionary (`name in cls.targets` /
`cls.targets[name]`). -/
def lookupT (name : String) : List (String × CameraOscTarget) → Option CameraOscTarget
  | [] => none
  | (k, v) :: rest => if k = name then some v else lookupT name rest

/-- Dictionary store `cls.targets[name] = t`: replace the value at an
existing key, else append the new binding. -/
def insertT (name : String) (t : CameraOscTarget) :
    List (String × CameraOscTarget) → List (String × CameraOscTarget)
  | [] => [(name, t)]
  | (k, v) :: rest =>
    if k = name then (k, t) :: rest else (k, v) :: insertT name t rest

/-- Dictionary removal `del cls.targets[name]`. -/
def eraseT (name : String) (l : List (String × CameraOscTarget)) :
    List (String × CameraOscTarget) :=
  l.filter (fun p => p.1 ≠ name)

/-- `CameraOscSyncer` class state: the registry of targets (keyed by object
name, insertion ordered like a Python dict) and the
`_handler_registered` flag recording whether the depsgraph-update
subscription is active. -/
structure SyncerState where
  targets : List (String × CameraOscTarget)
  handler_registered : Bool
deriving DecidableEq, Repr

/-- The syncer before any target was ever added. -/
def initialState : SyncerState := ⟨[], false⟩

/-- `CameraOscSyncer.add_target`: store the target under its object name,
ensure the depsgraph handler is registered (idempotent), and send initial
data.  The registry holds the very object `_send_camera_data` mutates, so
the stored target carries the cache written by the initial send. -/
def addTarget (scene : Scene) (sendOk : Bool) (st : SyncerState)
    (t : CameraOscTarget) : SyncerState × List Packet × Bool :=
  let r := sendCameraData scene sendOk t
  (⟨insertT t.object_name r.target st.targets, true⟩, r.packets, r.errorLogged)

/-- `CameraOscSyncer.remove_target`: delete the entry if present; if the
registry is empty afterwards, remove the depsgraph handler. -/
def removeTarget (st : SyncerState) (object_name : String) : SyncerState :=
  let targets1 :=
    if (lookupT object_name st.targets).isSome then eraseT object_name st.targets
    else st.targets
  if targets1.isEmpty then ⟨targets1, false⟩
  else ⟨targets1, st.handler_registered⟩

/-- One evaluate-and-maybe-send cycle driven through the registry, as the
depsgraph callback does it: look the target up by name (absent names do
nothing) and run `_send_camera_data` on it; the registry keeps the same
entry, whose cache the cycle may have written. -/
def syncerCycle (scene : Scene) (sendOk : Bool) (st : SyncerState)
    (name : String) : SyncerState × List Packet × Bool :=
  match lookupT name st.targets with
  | none => (st, [], false)
  | some t =>
    let r := sendCameraData scene sendOk t
    (⟨insertT name r.target st.targets, st.handler_registered⟩, r.packets, r.errorLogged)

/-- Report levels used by `Operator.report`. -/
inductive ReportLevel
  | ERROR
  | INFO
deriving DecidableEq, Repr

/-- Operator return values. -/
inductive OpResult
  | CANCELLED
  | FINISHED
deriving DecidableEq, Repr

/-- The per-camera `OscCameraSettings` property group (properties.py):
the running flag and the connection/OSC parameters. -/
structure OscCameraSettings where
  active : Bool
  host : String
  port : Nat
  address_pfx : String
  look_distance : ℚ
  send_bundled : Bool
deriving DecidableEq, Repr

/-- What `OSC_OT_camera_sync.execute` sees: whether python-osc imported,
the active object, its camera settings, whether creating the UDP client
succeeds (`clientOk`), and whether the initial send succeeds. -/
structure ExecCtx where
  osc_ok : Bool
  active_object : Option BObject
  settings : OscCameraSettings
  clientOk : Bool
  sendOk : Bool
deriving DecidableEq, Repr

/-- What `execute` leaves behind: the syncer state, the (possibly updated)
per-camera settings, the operator result, the reports issued, and the
packets transmitted by the initial send. -/
structure ExecOut where
  state : SyncerState
  settings : OscCameraSettings
  result : OpResult
  reports : List ReportLevel
  packets : List Packet
deriving DecidableEq, Repr

/-- `OSC_OT_camera_sync.execute` (operators.py lines 202-243): abort with
an error if python-osc is missing or no camera is selected; if the camera
is already active, clear the flag and remove its target; otherwise create
the UDP client (abort with an error, registering nothing, if that raises),
register the target (which sends initial data) and set the active flag. -/
def execute (scene : Scene) (ctx : ExecCtx) (st : SyncerState) : ExecOut :=
  if ¬ctx.osc_ok then ⟨st, ctx.settings, .CANCELLED, [.ERROR], []⟩
  else
    match ctx.active_object with
    | none => ⟨st, ctx.settings, .CANCELLED, [.ERROR], []⟩
    | some obj =>
      if obj.objType ≠ ObjType.CAMERA then ⟨st, ctx.settings, .CANCELLED, [.ERROR], []⟩
      else if ctx.settings.active then
        let st' := removeTarget st obj.name
        ⟨st', { ctx.settings with active := false }, .FINISHED, [.INFO], []⟩
      else if ctx.clientOk then
        let t := mkTarget obj.name 0 ctx.settings.address_pfx
          ctx.settings.look_distance ctx.settings.send_bundled
        let r := addTarget scene ctx.sendOk st t
        ⟨r.1, { ctx.settings with active := true }, .FINISHED, [.INFO], r.2.1⟩
      else ⟨st, ctx.settings, .CANCELLED, [.ERROR], []⟩

/-- Run a sequence of operator invocations (start and stop calls). -/
def runSeq (scene : Scene) : List ExecCtx → SyncerState → SyncerState
  | [], st => st
  | c :: rest, st => runSeq scene rest (execute scene c st).state

/-- The registry/subscription invariant: the depsgraph subscription is
active exactly when the registry is non-empty. -/
def handlerInv (st : SyncerState) : Prop :=
  st.handler_registered = true ↔ st.targets ≠ []

/-! Concrete fixtures used by the witness theorems. -/

/-- A camera data-block with lens angle pi/4 rad (45 degrees) and clip
range 0.1 .. 100. -/
def camData0 : CameraData := ⟨floatPi / 4, 1 / 10, 100⟩

/-- A camera object at (1, 2, 3) with identity world orientation; not
parented, so its local location equals its world translation. -/
def cam0 : BObject :=
  ⟨"Cam1", ObjType.CAMERA, ⟨1, 2, 3⟩, ⟨1, 0, 0, 0⟩, ⟨1, 2, 3⟩, camData0⟩

/-- A non-camera object. -/
def lamp0 : BObject :=
  ⟨"Lamp", ObjType.OTHER, ⟨0, 0, 0⟩, ⟨1, 0, 0, 0⟩, ⟨0, 0, 0⟩, camData0⟩

/-- A parented camera: its local location (0,0,0) differs from its world
translation (1,0,0). -/
def camParented : BObject :=
  ⟨"Rig", ObjType.CAMERA, ⟨0, 0, 0⟩, ⟨1, 0, 0, 0⟩, ⟨1, 0, 0⟩, camData0⟩

/-- A scene containing the example camera and the non-camera object. -/
def scene0 : Scene := [cam0, lamp0]

/-- A freshly constructed target for the example camera (note the trailing
slash in the configured address, stripped by the constructor). -/
def target0 : CameraOscTarget := mkTarget "Cam1" 0 "/camera/" 1 true

/-- A freshly constructed target whose object name resolves to nothing. -/
def targetGone : CameraOscTarget := mkTarget "Gone" 0 "/camera" 1 true

/-- A freshly constructed target whose object name resolves to the
non-camera object. -/
def targetLamp : CameraOscTarget := mkTarget "Lamp" 0 "/camera" 1 false

/-- Example settings with sync not yet running. -/
def settings0 : OscCameraSettings := ⟨false, "127.0.0.1", 9000, "/camera", 1, true⟩

/-- A syncer state with the example target registered and the handler on. -/
def stateA : SyncerState := ⟨[("Cam1", target0)], true⟩

/-- A syncer state with the stale targets registered and the handler on. -/
def stateB : SyncerState := ⟨[("Gone", targetGone), ("Lamp", targetLamp)], true⟩

/-- An execute context attempting to start sync on the example camera with
a transport that fails to open. -/
def ctxBadHost : ExecCtx := ⟨true, some cam0, settings0, false, true⟩

end OscCameraSync

namespace OscCameraSync

/-- C4: the coordinate remap satisfies remap(v) = (x, z, -y) and applying
it four times is the identity. It is a total Lean function on all of Vec3,
hence defined (and error-free) for every input. -/
theorem C4_coordinate_remap (v : Vec3) :
    blender_to_ossia_coords v = ⟨v.x, v.z, -v.y⟩ ∧
    blender_to_ossia_coords (blender_to_ossia_coords
      (blender_to_ossia_coords (blender_to_ossia_coords v))) = v := by
  cases v with
  | mk x y z => exact ⟨rfl, by simp [blender_to_ossia_coords]⟩

/-! Registry dictionary lemmas. -/

theorem lookupT_insertT_self (k : String) (v : CameraOscTarget)
    (l : List (String × CameraOscTarget)) : lookupT k (insertT k v l) = some v := by
  induction l with
  | nil => simp [insertT, lookupT]
  | cons p rest ih =>
    obtain ⟨a, b⟩ := p
    by_cases h : a = k
    · simp [insertT, h, lookupT]
    · simp [insertT, h, lookupT, ih]

theorem insertT_ne_nil (k : String) (v : CameraOscTarget)
    (l : List (String × CameraOscTarget)) : insertT k v l ≠ [] := by
  cases l with
  | nil => simp [insertT]
  | cons p rest =>
    obtain ⟨a, b⟩ := p
    by_cases h : a = k <;> simp [insertT, h]

theorem keys_insertT_of_lookup (k : String) (v t : CameraOscTarget)
    (l : List (String × CameraOscTarget)) (h : lookupT k l = some t) :
    (insertT k v l).map Prod.fst = l.map Prod.fst := by
  induction l with
  | nil => simp [lookupT] at h
  | cons p rest ih =>
    obtain ⟨a, b⟩ := p
    by_cases ha : a = k
    · simp [insertT, ha]
    · simp [lookupT, ha] at h
      simp [insertT, ha, ih h]

theorem insertT_self_of_lookup (k : String) (t : CameraOscTarget)
    (l : List (String × CameraOscTarget)) (h : lookupT k l = some t) :
    insertT k t l = l := by
  induction l with
  | nil => simp [lookupT] at h
  | cons p rest ih =>
    obtain ⟨a, b⟩ := p
    by_cases ha : a = k
    · simp [lookupT, ha] at h
      simp [insertT, ha, h]
    · simp [lookupT, ha] at h
      simp [insertT, ha, ih h]

theorem lookupT_eraseT_self (k : String) (l : List (String × CameraOscTarget)) :
    lookupT k (eraseT k l) = none := by
  induction l with
  | nil => simp [eraseT, lookupT]
  | cons p rest ih =>
    obtain ⟨a, b⟩ := p
    by_cases ha : a = k
    · simpa [eraseT, ha] using ih
    · simpa [eraseT, ha, lookupT] using ih

theorem eraseT_of_lookup_none (k : String) (l : List (String × CameraOscTarget))
    (h : lookupT k l = none) : eraseT k l = l := by
  induction l with
  | nil => rfl
  | cons p rest ih =>
    obtain ⟨a, b⟩ := p
    by_cases ha : a = k
    · simp [lookupT, ha] at h
    · simp [lookupT, ha] at h
      simp [eraseT, ha] at ih ⊢
      exact ih h

theorem eraseT_ne_nil_imp (k : String) (l : List (String × CameraOscTarget))
    (h : eraseT k l ≠ []) : l ≠ [] := by
  intro hl
  subst hl
  exact h rfl

/-! Reduction lemmas for the evaluate-and-maybe-send cycle. -/

theorem sendCameraData_skip (scene : Scene) (sendOk : Bool) (t : CameraOscTarget)
    (obj : BObject) (hobj : Scene.get scene t.object_name = some obj)
    (hcam : obj.objType = ObjType.CAMERA)
    (heq : t.last_data = some (computeSnapshot obj t.look_distance)) :
    sendCameraData scene sendOk t = ⟨t, [], false⟩ := by
  simp [sendCameraData, hobj, hcam, heq]

theorem sendCameraData_send (scene : Scene) (t : CameraOscTarget)
    (obj : BObject) (hobj : Scene.get scene t.object_name = some obj)
    (hcam : obj.objType = ObjType.CAMERA)
    (hne : t.last_data ≠ some (computeSnapshot obj t.look_distance)) :
    sendCameraData scene true t =
      ⟨{ t with last_data := some (computeSnapshot obj t.look_distance) },
       if t.send_bundled then
         [Packet.bundle OscTime.IMMEDIATELY
           (buildMessages t.address_pfx (computeSnapshot obj t.look_distance))]
       else
         (buildMessages t.address_pfx (computeSnapshot obj t.look_distance)).map
           Packet.message,
       false⟩ := by
  simp [sendCameraData, hobj, hcam, hne, transportSend]

theorem sendCameraData_send_fail (scene : Scene) (t : CameraOscTarget)
    (obj : BObject) (hobj : Scene.get scene t.object_name = some obj)
    (hcam : obj.objType = ObjType.CAMERA)
    (hne : t.last_data ≠ some (computeSnapshot obj t.look_distance)) :
    sendCameraData scene false t =
      ⟨{ t with last_data := some (computeSnapshot obj t.look_distance) }, [], true⟩ := by
  simp [sendCameraData, hobj, hcam, hne, transportSend]

theorem sendCameraData_stale (scene : Scene) (sendOk : Bool) (t : CameraOscTarget)
    (hstale : Scene.get scene t.object_name = none ∨
      ∃ obj, Scene.get scene t.object_name = some obj ∧ obj.objType ≠ ObjType.CAMERA) :
    sendCameraData scene sendOk t = ⟨t, [], false⟩ := by
  rcases hstale with h | ⟨obj, hobj, hcam⟩
  · simp [sendCameraData, h]
  · simp [sendCameraData, hobj, hcam]

/-- C1: on a cycle whose target resolves to a live camera, a transmission
occurs if and only if the cache is absent or the fresh snapshot differs
from it; two consecutive cycles on an unchanged object (starting from a
cache-miss state, as after start) produce exactly one transmission (the
first transmits, the second does not); and the first cycle triggered by
start (empty cache) always transmits. -/
theorem C1_duplicate_suppression (scene : Scene) (t : CameraOscTarget) (obj : BObject)
    (hobj : Scene.get scene t.object_name = some obj)
    (hcam : obj.objType = ObjType.CAMERA) :
    (transmitted (sendCameraData scene true t) = true ↔
      t.last_data ≠ some (computeSnapshot obj t.look_distance)) ∧
    (t.last_data ≠ some (computeSnapshot obj t.look_distance) →
      transmitted (sendCameraData scene true t) = true ∧
      transmitted (sendCameraData scene true (sendCameraData scene true t).target) = false) ∧
    (t.last_data = none → transmitted (sendCameraData scene true t) = true) := by
  have hsend : t.last_data ≠ some (computeSnapshot obj t.look_distance) →
      transmitted (sendCameraData scene true t) = true := by
    intro hne
    rw [sendCameraData_send scene t obj hobj hcam hne]
    by_cases hb : t.send_bundled <;> simp [transmitted, hb, buildMessages]
  refine ⟨⟨fun htr heq => ?_, hsend⟩, fun hne => ⟨hsend hne, ?_⟩,
    fun hnone => hsend (by simp [hnone])⟩
  · rw [sendCameraData_skip scene true t obj hobj hcam heq] at htr
    simp [transmitted] at htr
  · rw [sendCameraData_send scene t obj hobj hcam hne]
    have h2 := sendCameraData_skip scene true
      { t with last_data := some (computeSnapshot obj t.look_distance) } obj hobj hcam rfl
    show transmitted (sendCameraData scene true
      { t with last_data := some (computeSnapshot obj t.look_distance) }) = false
    rw [h2]
    simp [transmitted]

/-- C1 witness: a fresh target on the example camera transmits on the first
cycle and not on the second. -/
theorem C1_duplicate_suppression_witness :
    target0.last_data = none ∧
    transmitted (sendCameraData scene0 true target0) = true ∧
    transmitted (sendCameraData scene0 true (sendCameraData scene0 true target0).target) = false := by
  have h := C1_duplicate_suppression scene0 target0 cam0 rfl rfl
  have hne : target0.last_data ≠ some (computeSnapshot cam0 target0.look_distance) := by
    simp [target0, mkTarget]
  exact ⟨rfl, (h.2.1 hne).1, (h.2.1 hne).2⟩

/-- C3 counterexample: on a parented camera whose local location (0,0,0)
differs from its world translation (1,0,0), the extractor output differs
from the claimed world-position formula, because the source reads
`obj.location`, not the world position. -/
theorem C3_extractor_counterexample :
    computeSnapshot camParented 1 ≠ claimSnapshot camParented 1 := by
  intro h
  have hx := congrArg (fun s => s.position.x) h
  simp [computeSnapshot, claimSnapshot, camParented, blender_to_ossia_coords] at hx

/-- C3 amended: the extractor produces (remap(l), remap(l + (q rotating
(0,0,-1)) * d), degrees(a), n, f) where l is the object's LOCAL location
(`obj.location`) and q its current world orientation quaternion; this
coincides with the claimed world-position form exactly when the local
location equals the world translation (unparented, unconstrained objects). -/
theorem C3_extractor_amended (obj : BObject) (d : ℚ) :
    computeSnapshot obj d =
      { position := blender_to_ossia_coords obj.location
        center := blender_to_ossia_coords
          (Vec3.add obj.location (Vec3.smul (quatRotate obj.world_quat ⟨0, 0, -1⟩) d))
        fov := degrees obj.data.angle
        near := obj.data.clip_start
        far := obj.data.clip_end } ∧
    (obj.location = obj.world_translation → computeSnapshot obj d = claimSnapshot obj d) := by
  refine ⟨rfl, fun h => ?_⟩
  simp [computeSnapshot, claimSnapshot, h]

/-- C3 witness: the example camera is unparented (location equals world
translation), so the extractor agrees with the world-position form there. -/
theorem C3_extractor_amended_witness :
    cam0.location = cam0.world_translation ∧
    computeSnapshot cam0 1 = claimSnapshot cam0 1 :=
  ⟨rfl, (C3_extractor_amended cam0 1).2 rfl⟩

/-- C9: a cycle on a registered target whose object name resolves to
nothing, or to a non-camera, is a complete no-op: no packets, no error
logged, the registry (including the cached snapshot) and the subscription
are exactly as before. -/
theorem C9_stale_target_noop (scene : Scene) (st : SyncerState) (name : String)
    (t : CameraOscTarget) (sendOk : Bool)
    (hreg : lookupT name st.targets = some t)
    (hstale : Scene.get scene t.object_name = none ∨
      ∃ obj, Scene.get scene t.object_name = some obj ∧ obj.objType ≠ ObjType.CAMERA) :
    syncerCycle scene sendOk st name = (st, [], false) := by
  obtain ⟨tg, hr⟩ := st
  simp only [syncerCycle, hreg, sendCameraData_stale scene sendOk t hstale]
  rw [insertT_self_of_lookup name t tg hreg]

/-- C9 witness: cycles on a target whose object was deleted and on a target
whose object is not a camera both leave the state untouched and send
nothing. -/
theorem C9_stale_target_noop_witness :
    syncerCycle scene0 true stateB "Gone" = (stateB, [], false) ∧
    syncerCycle scene0 true stateB "Lamp" = (stateB, [], false) := by
  constructor
  · exact C9_stale_target_noop scene0 stateB "Gone" targetGone true rfl (Or.inl rfl)
  · exact C9_stale_target_noop scene0 stateB "Lamp" targetLamp true rfl
      (Or.inr ⟨lamp0, rfl, by decide⟩)

/-- C10: when the fresh snapshot differs from the cache, the cache is
written before the transport send; if the send fails the cache nonetheless
holds the new snapshot (while the error is logged and nothing reaches the
wire), and a subsequent cycle on the unchanged object transmits nothing. -/
theorem C10_cache_before_send (scene : Scene) (t : CameraOscTarget) (obj : BObject)
    (hobj : Scene.get scene t.object_name = some obj)
    (hcam : obj.objType = ObjType.CAMERA)
    (hdiff : t.last_data ≠ some (computeSnapshot obj t.look_distance)) :
    (sendCameraData scene false t).target.last_data
        = some (computeSnapshot obj t.look_distance) ∧
    (sendCameraData scene false t).errorLogged = true ∧
    transmitted (sendCameraData scene false t) = false ∧
    transmitted (sendCameraData scene true (sendCameraData scene false t).target) = false := by
  rw [sendCameraData_send_fail scene t obj hobj hcam hdiff]
  refine ⟨rfl, rfl, rfl, ?_⟩
  show transmitted (sendCameraData scene true
    { t with last_data := some (computeSnapshot obj t.look_distance) }) = false
  rw [sendCameraData_skip scene true
    { t with last_data := some (computeSnapshot obj t.look_distance) } obj hobj hcam rfl]
  simp [transmitted]

/-- C10 witness: a failed initial send on the example camera still caches
the snapshot, and the retry-free follow-up cycle stays silent. -/
theorem C10_cache_before_send_witness :
    (sendCameraData scene0 false target0).target.last_data
        = some (computeSnapshot cam0 target0.look_distance) ∧
    transmitted (sendCameraData scene0 true (sendCameraData scene0 false target0).target) = false := by
  have h := C10_cache_before_send scene0 target0 cam0 rfl rfl (by simp [target0, mkTarget])
  exact ⟨h.1, h.2.2.2⟩

/-! Registry/subscription invariant lemmas (claim C2). -/

theorem handlerInv_initial : handlerInv initialState := by
  simp [handlerInv, initialState]

theorem handlerInv_addTarget (scene : Scene) (sendOk : Bool) (st : SyncerState)
    (t : CameraOscTarget) : handlerInv (addTarget scene sendOk st t).1 := by
  unfold addTarget handlerInv
  simpa using insertT_ne_nil t.object_name _ st.targets

theorem handlerInv_removeTarget (st : SyncerState) (name : String)
    (h : handlerInv st) : handlerInv (removeTarget st name) := by
  obtain ⟨tg, hr⟩ := st
  have hsub : ∀ l : List (String × CameraOscTarget),
      l = (if (lookupT name tg).isSome then eraseT name tg else tg) →
      l ≠ [] → tg ≠ [] := by
    intro l hl hne
    by_cases hs : (lookupT name tg).isSome
    · rw [hl, if_pos hs] at hne
      exact eraseT_ne_nil_imp name tg hne
    · rwa [hl, if_neg hs] at hne
  unfold removeTarget
  by_cases he : (if (lookupT name tg).isSome then eraseT name tg else tg).isEmpty
  · simp only [he, if_true]
    have : (if (lookupT name tg).isSome then eraseT name tg else tg) = [] :=
      List.isEmpty_iff.mp he
    simp [handlerInv, this]
  · simp only [he, if_false]
    have hne : (if (lookupT name tg).isSome then eraseT name tg else tg) ≠ [] := by
      intro hnil
      rw [hnil] at he
      exact he rfl
    have htg : tg ≠ [] := hsub _ rfl hne
    simp only [handlerInv] at h ⊢
    simpa [hne] using h.mpr htg

theorem handlerInv_execute (scene : Scene) (ctx : ExecCtx) (st : SyncerState)
    (h : handlerInv st) : handlerInv (execute scene ctx st).state := by
  unfold execute
  split
  · exact h
  · split
    · exact h
    · split
      · exact h
      · split
        · exact handlerInv_removeTarget st _ h
        · split
          · exact handlerInv_addTarget scene ctx.sendOk st _
          · exact h

theorem handlerInv_runSeq (scene : Scene) (ops : List ExecCtx) :
    ∀ st : SyncerState, handlerInv st → handlerInv (runSeq scene ops st) := by
  induction ops with
  | nil => intro st h; exact h
  | cons c rest ih =>
    intro st h
    exact ih _ (handlerInv_execute scene c st h)

/-- C2: after any finite sequence of operator invocations (start and stop
calls, including aborted ones) beginning from the initial state, the
depsgraph subscription is active exactly when the registry of targets is
non-empty.  Every prefix of a sequence is itself a sequence, so the
invariant holds after each operation. -/
theorem C2_registry_subscription_invariant (scene : Scene) (ops : List ExecCtx) :
    handlerInv (runSeq scene ops initialState) :=
  handlerInv_runSeq scene ops initialState handlerInv_initial

/-- C5: a transmission (here: the initial send on a freshly registered
target) consists of exactly the five messages position (3 floats),
center (3 floats), fov, near, far (1 float each), in that order, addressed
under the configured prefix with all trailing slashes stripped; bundled
mode wraps them in one IMMEDIATELY-stamped bundle, unbundled mode sends
them as five discrete messages in the same order. -/
theorem C5_transmission_format (scene : Scene) (t : CameraOscTarget) (obj : BObject)
    (name cfg : String) (client : Nat) (ld : ℚ) (bundled : Bool)
    (hobj : Scene.get scene t.object_name = some obj)
    (hcam : obj.objType = ObjType.CAMERA)
    (hne : t.last_data ≠ some (computeSnapshot obj t.look_distance)) :
    ((sendCameraData scene true t).packets =
      (let pfx := t.address_pfx
       let d := computeSnapshot obj t.look_distance
       let msgs : List OscMessage :=
         [⟨pfx ++ "/position", [d.position.x, d.position.y, d.position.z]⟩,
          ⟨pfx ++ "/center", [d.center.x, d.center.y, d.center.z]⟩,
          ⟨pfx ++ "/fov", [d.fov]⟩,
          ⟨pfx ++ "/near", [d.near]⟩,
          ⟨pfx ++ "/far", [d.far]⟩]
       if t.send_bundled then [Packet.bundle OscTime.IMMEDIATELY msgs]
       else msgs.map Packet.message)) ∧
    (mkTarget name client cfg ld bundled).address_pfx = rstripSlash cfg := by
  refine ⟨?_, rfl⟩
  rw [sendCameraData_send scene t obj hobj hcam hne]
  by_cases hb : t.send_bundled <;> simp [hb, buildMessages]

/-- C5 witness: on the example camera, a bundled fresh target emits one
IMMEDIATELY bundle of the five messages, and stripping the configured
prefix of a trailing slash is visible in it. -/
theorem C5_transmission_format_witness :
    rstripSlash "/camera/" = "/camera" ∧
    (sendCameraData scene0 true target0).packets =
      [Packet.bundle OscTime.IMMEDIATELY
        (buildMessages target0.address_pfx (computeSnapshot cam0 1))] := by
  refine ⟨by decide, ?_⟩
  have h := (C5_transmission_format scene0 target0 cam0 "Cam1" "/camera/" 0 1 true
    rfl rfl (by simp [target0, mkTarget])).1
  simpa [buildMessages] using h

/-- C6: if the camera is inactive and opening the UDP client fails, start
reports an error and aborts atomically: result CANCELLED, registry and
subscription exactly as before, nothing transmitted, active flag still
false (the settings are returned unchanged). -/
theorem C6_start_transport_failure (scene : Scene) (ctx : ExecCtx) (st : SyncerState)
    (obj : BObject)
    (hosc : ctx.osc_ok = true)
    (hobj : ctx.active_object = some obj)
    (hcam : obj.objType = ObjType.CAMERA)
    (hact : ctx.settings.active = false)
    (hcl : ctx.clientOk = false) :
    execute scene ctx st = ⟨st, ctx.settings, OpResult.CANCELLED, [ReportLevel.ERROR], []⟩ := by
  unfold execute
  simp [hosc, hobj, hcam, hact, hcl]

/-- C6 witness: starting on the example camera with a failing transport
from the pristine state leaves everything untouched and cancels. -/
theorem C6_start_transport_failure_witness :
    execute scene0 ctxBadHost initialState =
      ⟨initialState, settings0, OpResult.CANCELLED, [ReportLevel.ERROR], []⟩ :=
  C6_start_transport_failure scene0 ctxBadHost initialState cam0 rfl rfl rfl rfl rfl

/-- C7: when the transport send raises during a cycle, the error is caught
and logged (the cycle returns normally with the errorLogged flag), nothing
reaches the wire (no retry), the subscription flag and the set of
registered names are exactly as before, and the target remains registered
(its duplicate-suppression cache now holding the fresh snapshot, cf. C10). -/
theorem C7_send_failure_contained (scene : Scene) (st : SyncerState)
    (name : String) (t : CameraOscTarget) (obj : BObject)
    (hreg : lookupT name st.targets = some t)
    (hobj : Scene.get scene t.object_name = some obj)
    (hcam : obj.objType = ObjType.CAMERA)
    (hdiff : t.last_data ≠ some (computeSnapshot obj t.look_distance)) :
    (syncerCycle scene false st name).2.2 = true ∧
    (syncerCycle scene false st name).2.1 = [] ∧
    (syncerCycle scene false st name).1.handler_registered = st.handler_registered ∧
    (syncerCycle scene false st name).1.targets.map Prod.fst = st.targets.map Prod.fst ∧
    lookupT name (syncerCycle scene false st name).1.targets =
      some { t with last_data := some (computeSnapshot obj t.look_distance) } := by
  have hsend := sendCameraData_send_fail scene t obj hobj hcam hdiff
  simp only [syncerCycle, hreg, hsend]
  refine ⟨trivial, trivial, trivial, ?_, ?_⟩
  · exact keys_insertT_of_lookup name _ t st.targets hreg
  · exact lookupT_insertT_self name _ st.targets

/-- C7 witness: a failing send on the registered example target logs the
error, emits nothing, and keeps the target registered with the handler on. -/
theorem C7_send_failure_contained_witness :
    (syncerCycle scene0 false stateA "Cam1").2.2 = true ∧
    (syncerCycle scene0 false stateA "Cam1").2.1 = [] ∧
    (syncerCycle scene0 false stateA "Cam1").1.handler_registered = stateA.handler_registered := by
  have h := C7_send_failure_contained scene0 stateA "Cam1" target0 cam0 rfl rfl rfl
    (by simp [target0, mkTarget])
  exact ⟨h.1, h.2.1, h.2.2.1⟩

/-- C8: stop removes the identifier from the registry when present, is a
no-op (and raises nothing: it is a total function) when absent — under the
registry/subscription invariant the whole state is unchanged — and
whenever the registry is empty after the removal the subscription is
deactivated in the same call. -/
theorem removeTarget_eq (st : SyncerState) (name : String) :
    removeTarget st name =
      ⟨if (lookupT name st.targets).isSome then eraseT name st.targets else st.targets,
       if (if (lookupT name st.targets).isSome then eraseT name st.targets
           else st.targets).isEmpty
       then false else st.handler_registered⟩ := by
  unfold removeTarget
  split <;> split <;> simp_all

theorem C8_stop_idempotent (st : SyncerState) (name : String) :
    (lookupT name st.targets = none → (removeTarget st name).targets = st.targets) ∧
    (lookupT name st.targets = none → handlerInv st → removeTarget st name = st) ∧
    lookupT name (removeTarget st name).targets = none ∧
    ((removeTarget st name).targets = [] → (removeTarget st name).handler_registered = false) := by
  obtain ⟨tg, hr⟩ := st
  refine ⟨fun h => ?_, fun h hinv => ?_, ?_, ?_⟩
  · rw [removeTarget_eq]
    simp [h]
  · rw [removeTarget_eq]
    simp only [h, Option.isSome_none, Bool.false_eq_true, if_false]
    by_cases he : tg = []
    · subst he
      have hfalse : hr = false := by simpa [handlerInv] using hinv
      simp [hfalse]
    · simp [he]
  · rw [removeTarget_eq]
    cases hL : lookupT name tg with
    | none => simp [hL]
    | some t => simp [hL, lookupT_eraseT_self]
  · rw [removeTarget_eq]
    intro habs
    have habs2 : (if (lookupT name tg).isSome then eraseT name tg else tg) = [] := habs
    show (if (if (lookupT name tg).isSome then eraseT name tg
            else tg).isEmpty then false else hr) = false
    rw [habs2]
    simp

/-- C8 witness: stopping the registered example target removes it, and
stopping an unregistered identifier on the pristine state changes nothing. -/
theorem C8_stop_idempotent_witness :
    lookupT "Cam1" (removeTarget stateA "Cam1").targets = none ∧
    removeTarget initialState "Nobody" = initialState := by
  refine ⟨(C8_stop_idempotent stateA "Cam1").2.2.1, ?_⟩
  exact (C8_stop_idempotent initialState "Nobody").2.1 rfl handlerInv_initial

end OscCameraSync
